import Mathlib

/-!
# Verification of the rustplus.js-typed request/response correlation core

Shallow embedding of the `RustPlus` class from `src/src/rustplus.ts` (and the
legacy `src/rustplus.js`): the sequence allocator, the callback registry
(`seqCallbacks`, a JS sparse array used as a map), the websocket `message`
handler installed by `connect`, `sendRequest`, `sendRequestAsync`,
`disconnect` and `isConnected`.

External collaborators are modelled as the spec directs: the protobuf codec is
a deterministic `decode` function parameter (the handler decodes the same byte
frame twice; determinism makes both results equal), and the `ws` transport is a
handle carrying its `readyState`.  JS truthiness of a callback's return value
(`Promisable<void> | boolean`) is modelled by `RetVal`/`truthy`: a `Promise`
object is truthy regardless of what it later resolves to.
-/

namespace RustPlusSpec

/-- `WebSocket.readyState` values of the `ws` library. -/
inductive ReadyState where
  | CONNECTING
  | OPEN
  | CLOSING
  | CLOSED
deriving DecidableEq, Repr

/-- A transport handle: the part of a `ws` `WebSocket` object the class reads
(`readyState`; `send`/`terminate` are side effects recorded in logs). -/
structure WS where
  readyState : ReadyState
deriving DecidableEq, Repr

/-- `AppError` of the wire schema: carries an error string. -/
structure AppError where
  error : String
deriving DecidableEq, Repr

/-- A decoded `AppResponse`: the originating sequence number, an optional error
indicator, and a stand-in for the one-of response payload (owned by the
external schema, kept abstract as a number). -/
structure AppResponse where
  seq : Nat
  error : Option AppError
  content : Nat
deriving DecidableEq, Repr

/-- A decoded `AppMessage`: either a response (correlated by `seq`) or a
broadcast; protobuf leaves absent submessages `undefined`, hence `Option`. -/
structure AppMessage where
  response : Option AppResponse
  broadcast : Option Nat
deriving DecidableEq, Repr

/-- The one-of request kind of an `AppRequest` (e.g. `getTime`); payload body
owned by the external schema. -/
inductive RequestPayload where
  | getTime
  | getInfo
  | otherReq (n : Nat)
deriving DecidableEq, Repr

/-- The fully merged wire request handed to `AppRequest.toBinary`. -/
structure AppRequest where
  seq : Nat
  playerId : String
  playerToken : Int
  payload : RequestPayload
deriving DecidableEq, Repr

/-- The caller-supplied `data` argument of `sendRequest` as it exists at
runtime: the TS type forbids `seq`/`playerId`/`playerToken`, but a JS caller
can still pass them, in which case the object spread `{seq, playerId,
playerToken, ...data}` lets them shadow the base fields.  A `some` field is a
key present on the caller's object. -/
structure SendData where
  seq : Option Nat
  playerId : Option String
  playerToken : Option Int
  payload : RequestPayload

/-- What a JS `Promise` eventually resolves to; for the suppress-signal claims
only "resolves to `undefined`" versus anything else matters. -/
inductive JsResolved where
  | undefVal
  | otherVal (n : Nat)
deriving DecidableEq, Repr

/-- Runtime value returned by a registered callback
(`sendRequestReturnType = Promisable<void> | boolean`). -/
inductive RetVal where
  | undef
  | boolVal (b : Bool)
  | promiseVal (resolution : JsResolved)
deriving DecidableEq, Repr

/-- JS truthiness of a callback's return value: `undefined` and `false` are
falsy; `true` and every `Promise` object are truthy. -/
def truthy : RetVal → Bool
  | .undef => false
  | .boolVal b => b
  | .promiseVal _ => true

/-- A registered callback: invoked with the decoded message
(`callback(message)` in the handler). -/
def Cb : Type := AppMessage → RetVal

/-- `this.seqCallbacks[k]` on the sparse callback array. -/
def regGet (m : List (Nat × Cb)) (k : Nat) : Option Cb :=
  List.lookup k m

/-- `this.seqCallbacks[k] = v`: assignment shadows any earlier binding. -/
def regSet (m : List (Nat × Cb)) (k : Nat) (v : Cb) : List (Nat × Cb) :=
  (k, v) :: m

/-- `delete this.seqCallbacks[k]`: the key is removed entirely. -/
def regDel (m : List (Nat × Cb)) (k : Nat) : List (Nat × Cb) :=
  m.filter (fun p => p.1 ≠ k)

/-- The mutable state of a `RustPlus` instance relevant to the core:
`seq`, `seqCallbacks`, the websocket handle, and whether the proto codec types
(`this.AppRequest` / `this.AppMessage`, set by `connect`) are loaded.
`playerId`/`playerToken` are the `_playerId`/`_playerToken` identity fields
stamped onto every request (the constructor's `String()`/`Number()` coercions
of the raw constructor arguments are elided). -/
structure ClientState where
  seq : Nat
  seqCallbacks : List (Nat × Cb)
  websocket : Option WS
  appRequestLoaded : Bool
  appMessageLoaded : Bool
  playerId : String
  playerToken : Int

/-- Observable events emitted on the instance's event channel. -/
inductive OutEvent where
  | connectingEv
  | connectedEv
  | disconnectedEv
  | requestEv (r : AppRequest)
  | messageEv (m : AppMessage)
deriving DecidableEq, Repr

/-- Side effects performed on the transport handle. -/
inductive WSAction where
  | terminate (w : WS)
deriving DecidableEq, Repr

/-- The constructor: `seq = 0`, empty `seqCallbacks`, no websocket, proto
types not yet loaded. -/
def initState (playerId : String) (playerToken : Int) : ClientState :=
  { seq := 0
    seqCallbacks := []
    websocket := none
    appRequestLoaded := false
    appMessageLoaded := false
    playerId := playerId
    playerToken := playerToken }

/-- `disconnect()`: if a handle exists, `terminate()` it and null it out;
otherwise do nothing. -/
def disconnect (st : ClientState) : ClientState × List WSAction :=
  match st.websocket with
  | some w => ({ st with websocket := none }, [.terminate w])
  | none => (st, [])

/-- `isConnected()`: `this.websocket != null && this.websocket.readyState ===
WebSocket.OPEN`; the null guard means no property access when the handle is
absent, so the function is total. -/
def isConnected (st : ClientState) : Bool :=
  match st.websocket with
  | some w => w.readyState = ReadyState.OPEN
  | none => false

/-- `connect()`: tears down an existing handle first, loads the proto types,
emits `connecting`, and creates a fresh websocket (a new `ws` `WebSocket`
starts in `CONNECTING`). -/
def connect (st : ClientState) : ClientState × List OutEvent :=
  let st0 := if st.websocket.isSome then (disconnect st).1 else st
  let st1 := { st0 with appRequestLoaded := true, appMessageLoaded := true }
  ({ st1 with websocket := some { readyState := .CONNECTING } }, [.connectingEv])

/-- Transport `open` signal: the `ws` library moves `readyState` to `OPEN`
before firing; the installed handler emits `connected`. -/
def onOpenSignal (st : ClientState) : ClientState × List OutEvent :=
  match st.websocket with
  | some w => ({ st with websocket := some { w with readyState := .OPEN } }, [.connectedEv])
  | none => (st, [])

/-- Transport `close` signal: the `ws` library moves `readyState` to `CLOSED`
before firing; the installed handler only emits `disconnected` (the handle is
not cleared and pending entries are not rejected). -/
def onCloseSignal (st : ClientState) : ClientState × List OutEvent :=
  match st.websocket with
  | some w => ({ st with websocket := some { w with readyState := .CLOSED } }, [.disconnectedEv])
  | none => (st, [])

/-- The object spread `{seq: currentSeq, playerId: this._playerId, playerToken:
this._playerToken, ...data}`: base identity fields first, caller payload
second, so a caller-supplied field shadows the base one. -/
def mergeRequest (currentSeq : Nat) (pid : String) (ptok : Int) (d : SendData) : AppRequest :=
  { seq := d.seq.getD currentSeq
    playerId := d.playerId.getD pid
    playerToken := d.playerToken.getD ptok
    payload := d.payload }

/-- `sendRequest(data, callback?)`: no-op unless both the codec
(`this.AppRequest`) and the websocket are present; otherwise pre-increments
`seq`, registers the callback (if any) under the new sequence, merges the wire
request, sends its encoding, and emits the `request` event with the decoded
round trip of the sent bytes (the codec is deterministic, so that is the
merged request itself).  Returns (new state, frames sent, events emitted). -/
def sendRequest (st : ClientState) (data : SendData) (callback : Option Cb) :
    ClientState × List AppRequest × List OutEvent :=
  if !st.appRequestLoaded || st.websocket.isNone then (st, [], [])
  else
    let currentSeq := st.seq + 1
    let cbs :=
      match callback with
      | some cb => regSet st.seqCallbacks currentSeq cb
      | none => st.seqCallbacks
    let request := mergeRequest currentSeq st.playerId st.playerToken data
    ({ st with seq := currentSeq, seqCallbacks := cbs },
      [request], [.requestEv request])

/-- A run of successive `sendRequest` calls; collects all frames sent. -/
def sendRequestRun : ClientState → List (SendData × Option Cb) → ClientState × List AppRequest
  | st, [] => (st, [])
  | st, (d, cb) :: rest =>
    let out := sendRequest st d cb
    let next := sendRequestRun out.1 rest
    (next.1, out.2.1 ++ next.2)

/-- The websocket `message` handler installed by `connect`, over an abstract
frame type `Data` and the external deterministic codec `decode`.  Mirrors the
source: bail out if `this.AppMessage` is unset; decode; if the message is a
response with a truthy (non-zero) `seq` and a registered callback, invoke the
callback, delete the entry, and suppress the `message` event iff the result is
truthy; otherwise emit `message` with a second decode of the same frame.
Returns (new state, events emitted, invocations performed as
(sequence, argument) pairs). -/
def handleMessage {Data : Type} (decode : Data → AppMessage) (st : ClientState)
    (data : Data) : ClientState × List OutEvent × List (Nat × AppMessage) :=
  if !st.appMessageLoaded then (st, [], [])
  else
    let message := decode data
    match message.response with
    | some resp =>
      if resp.seq ≠ 0 then
        match regGet st.seqCallbacks resp.seq with
        | some callback =>
          let result := callback message
          let st1 := { st with seqCallbacks := regDel st.seqCallbacks resp.seq }
          if truthy result then (st1, [], [(resp.seq, message)])
          else (st1, [.messageEv (decode data)], [(resp.seq, message)])
        | none => (st, [.messageEv (decode data)], [])
      else (st, [.messageEv (decode data)], [])
    | none => (st, [.messageEv (decode data)], [])

/-- Default of `sendRequestAsync`'s `timeoutMilliseconds` parameter. -/
def defaultTimeoutMilliseconds : Nat := 10000

/-- How the awaitable returned by `sendRequestAsync` can settle. -/
inductive AsyncOutcome where
  | timeoutErr
  | respError (e : AppError)
  | success (r : AppResponse)
deriving DecidableEq, Repr

/-- State of one `sendRequestAsync` invocation: the promise's settlement (a JS
promise keeps its first settlement; later `resolve`/`reject` calls are no-ops)
and whether the timeout timer is still armed. -/
structure AsyncState where
  settled : Option AsyncOutcome
  timerActive : Bool
deriving DecidableEq, Repr

/-- Promise semantics: the first `resolve`/`reject` wins, later ones no-op. -/
def promiseSettle (st : AsyncState) (o : AsyncOutcome) : AsyncState :=
  match st.settled with
  | some _ => st
  | none => { st with settled := some o }

/-- The `setTimeout` callback: `reject(new Error("Timeout ..."))`.  It can only
run while the timer is armed (`clearTimeout` cancels it; `setTimeout` is
one-shot). -/
def onTimeout (st : AsyncState) : AsyncState :=
  if st.timerActive then promiseSettle { st with timerActive := false } .timeoutErr
  else st

/-- The callback `sendRequestAsync` registers through `sendRequest`:
`clearTimeout(timeout)`, then reject with `message.response.error` if set,
else resolve with `message.response`. -/
def onResponse (st : AsyncState) (resp : AppResponse) : AsyncState :=
  let st1 := { st with timerActive := false }
  match resp.error with
  | some e => promiseSettle st1 (.respError e)
  | none => promiseSettle st1 (.success resp)

/-- An occurrence that can reach one `sendRequestAsync` invocation: its timer
fires, or a matching response arrives and the registered callback runs. -/
inductive AsyncEvent where
  | timerFires
  | responseArrives (r : AppResponse)

/-- Process one occurrence. -/
def asyncStep (st : AsyncState) : AsyncEvent → AsyncState
  | .timerFires => onTimeout st
  | .responseArrives r => onResponse st r

/-- Process a sequence of occurrences in arrival order (the spec's single
logical thread delivers them one at a time). -/
def asyncRun (st : AsyncState) : List AsyncEvent → AsyncState
  | [] => st
  | e :: rest => asyncRun (asyncStep st e) rest

/-- State right after `sendRequestAsync` starts the timer and dispatches. -/
def asyncInit : AsyncState := { settled := none, timerActive := true }

/-- The `sendRequest` precondition: codec loaded and websocket present. -/
def readyToSend (st : ClientState) : Bool :=
  st.appRequestLoaded && st.websocket.isSome

/-! ### Concrete states and callbacks used by the witnesses -/

/-- An open transport handle. -/
def wsOpen : WS := { readyState := .OPEN }

/-- A freshly connected-and-opened client: counter at 0, empty registry. -/
def stReady : ClientState :=
  { initState "76561198000000000" 1234 with
      websocket := some wsOpen
      appRequestLoaded := true
      appMessageLoaded := true }

/-- A well-typed caller payload: `{getTime:{}}` with no forbidden fields. -/
def dataGetTime : SendData := { seq := none, playerId := none, playerToken := none, payload := .getTime }

/-- A well-typed caller payload: `{getInfo:{}}`. -/
def dataGetInfo : SendData := { seq := none, playerId := none, playerToken := none, payload := .getInfo }

/-- A callback returning `true` (the suppress signal). -/
def cbTrue : Cb := fun _ => .boolVal true

/-- A callback returning `false`. -/
def cbFalse : Cb := fun _ => .boolVal false

/-- An async callback: returns a `Promise` that resolves to `undefined`. -/
def cbPromise : Cb := fun _ => .promiseVal .undefVal

/-- A successful response to the request with sequence 1. -/
def respOk : AppResponse := { seq := 1, error := none, content := 42 }

/-- The decoded message frame carrying `respOk`. -/
def msgOk : AppMessage := { response := some respOk, broadcast := none }

/-- A response carrying the server's error indicator. -/
def respErr : AppResponse := { seq := 1, error := some { error := "banned" }, content := 0 }

/-- A response frame carrying sequence 0 (reserved/unset). -/
def msgZero : AppMessage :=
  { response := some { seq := 0, error := none, content := 7 }, broadcast := none }

/-! ### Registry and dispatcher lemmas -/

theorem regGet_regSet_self (m : List (Nat × Cb)) (k : Nat) (v : Cb) :
    regGet (regSet m k v) k = some v := by
  simp [regGet, regSet, List.lookup]

theorem regGet_regDel_self (m : List (Nat × Cb)) (k : Nat) :
    regGet (regDel m k) k = none := by
  induction m with
  | nil => rfl
  | cons p rest ih =>
    by_cases h : p.1 = k
    · simpa [regDel, List.filter_cons, h] using ih
    · have hbeq : (k == p.1) = false := by
        simp only [beq_eq_false_iff_ne, ne_eq]
        exact fun hkp => h hkp.symm
      simpa [regDel, regGet, List.filter_cons, List.lookup, h, hbeq] using ih

theorem sendRequest_eq_of_ready (st : ClientState) (d : SendData) (cb : Option Cb)
    (h : readyToSend st = true) :
    sendRequest st d cb =
      ({ st with
          seq := st.seq + 1
          seqCallbacks :=
            match cb with
            | some c => regSet st.seqCallbacks (st.seq + 1) c
            | none => st.seqCallbacks },
        [mergeRequest (st.seq + 1) st.playerId st.playerToken d],
        [.requestEv (mergeRequest (st.seq + 1) st.playerId st.playerToken d)]) := by
  have h' : st.appRequestLoaded = true ∧ st.websocket.isSome = true := by
    simpa [readyToSend] using h
  obtain ⟨w, hw⟩ := Option.isSome_iff_exists.mp h'.2
  simp [sendRequest, h'.1, hw]

theorem sendRequestRun_seq_spec (st : ClientState) (reqs : List (SendData × Option Cb))
    (hready : readyToSend st = true) (hdata : ∀ p ∈ reqs, p.1.seq = none) :
    (sendRequestRun st reqs).2.map AppRequest.seq = List.range' (st.seq + 1) reqs.length ∧
    (sendRequestRun st reqs).1.seq = st.seq + reqs.length := by
  induction reqs generalizing st with
  | nil => simp [sendRequestRun]
  | cons p rest ih =>
    obtain ⟨d, cb⟩ := p
    have hd : d.seq = none := hdata (d, cb) (List.mem_cons_self _ _)
    have hrest : ∀ q ∈ rest, q.1.seq = none := fun q hq => hdata q (List.mem_cons_of_mem _ hq)
    have hstep := sendRequest_eq_of_ready st d cb hready
    have hready1 : readyToSend (sendRequest st d cb).1 = true := by
      rw [hstep]; exact hready
    have ihr := ih (sendRequest st d cb).1 hready1 hrest
    simp only [sendRequestRun, List.length_cons, List.map_append, hstep] at ihr ⊢
    rw [List.range'_succ]
    refine ⟨?_, ?_⟩
    · rw [ihr.1]
      simp [mergeRequest, hd]
    · rw [ihr.2]
      omega

/-! ### Message-handler lemmas -/

theorem handleMessage_matched {Data : Type} (decode : Data → AppMessage) (st : ClientState)
    (data : Data) (r : AppResponse) (cb : Cb)
    (hloaded : st.appMessageLoaded = true)
    (hresp : (decode data).response = some r)
    (hseq : r.seq ≠ 0)
    (hcb : regGet st.seqCallbacks r.seq = some cb) :
    handleMessage decode st data =
      if truthy (cb (decode data)) = true
      then ({ st with seqCallbacks := regDel st.seqCallbacks r.seq },
            [], [(r.seq, decode data)])
      else ({ st with seqCallbacks := regDel st.seqCallbacks r.seq },
            [.messageEv (decode data)], [(r.seq, decode data)]) := by
  by_cases ht : truthy (cb (decode data)) = true <;>
    simp [handleMessage, hloaded, hresp, hseq, hcb, ht]

theorem handleMessage_unmatched {Data : Type} (decode : Data → AppMessage) (st : ClientState)
    (data : Data) (r : AppResponse)
    (hloaded : st.appMessageLoaded = true)
    (hresp : (decode data).response = some r)
    (hseq : r.seq ≠ 0)
    (hcb : regGet st.seqCallbacks r.seq = none) :
    handleMessage decode st data = (st, [.messageEv (decode data)], []) := by
  simp [handleMessage, hloaded, hresp, hseq, hcb]

/-! ### Async facade lemmas -/

theorem asyncStep_settled (st : AsyncState) (o : AsyncOutcome) (e : AsyncEvent)
    (h : st.settled = some o) : (asyncStep st e).settled = some o := by
  cases e with
  | timerFires =>
    by_cases ht : st.timerActive = true <;> simp [asyncStep, onTimeout, promiseSettle, ht, h]
  | responseArrives r =>
    cases hr : r.error <;> simp [asyncStep, onResponse, promiseSettle, hr, h]

theorem asyncRun_settled (st : AsyncState) (o : AsyncOutcome) (evs : List AsyncEvent)
    (h : st.settled = some o) : (asyncRun st evs).settled = some o := by
  induction evs generalizing st with
  | nil => exact h
  | cons e rest ih =>
    simp only [asyncRun]
    exact ih (asyncStep st e) (asyncStep_settled st o e h)

/-! ### Claim theorems -/

/-- C1: With the transport handle and codec present, a run of N `sendRequest`
calls (well-typed payloads carry no `seq` field) assigns the sequence numbers
`counter+1, …, counter+N`: each call increments the counter by exactly 1, the
dispatched frames carry strictly increasing sequence numbers with no repeats,
and with the counter starting at 0 the first dispatched request carries
sequence number 1. -/
theorem sendRequest_seq_strictly_increasing
    (st : ClientState) (reqs : List (SendData × Option Cb))
    (hready : readyToSend st = true) (hdata : ∀ p ∈ reqs, p.1.seq = none) :
    (sendRequestRun st reqs).2.map AppRequest.seq = List.range' (st.seq + 1) reqs.length ∧
    (sendRequestRun st reqs).1.seq = st.seq + reqs.length ∧
    ((sendRequestRun st reqs).2.map AppRequest.seq).Pairwise (· < ·) ∧
    ((sendRequestRun st reqs).2.map AppRequest.seq).Nodup ∧
    (st.seq = 0 → (sendRequestRun st reqs).2.head?.map AppRequest.seq =
      if reqs.length = 0 then none else some 1) := by
  obtain ⟨hmap, hseq⟩ := sendRequestRun_seq_spec st reqs hready hdata
  refine ⟨hmap, hseq, ?_, ?_, ?_⟩
  · rw [hmap]; exact List.pairwise_lt_range' _ _
  · rw [hmap]; exact List.nodup_range' _ _
  · intro h0
    rw [← List.head?_map, hmap, h0, List.head?_range']

/-- The two-request run `sendRequest({getTime:{}}, cb); sendRequest({getInfo:{}})`. -/
def reqsTwo : List (SendData × Option Cb) := [(dataGetTime, some cbTrue), (dataGetInfo, none)]

/-- Witness for C1: from the fresh connected client, two dispatches carry
sequence numbers 1 and 2 and leave the counter at 2. -/
theorem sendRequest_seq_strictly_increasing_witness :
    (readyToSend stReady = true ∧ stReady.seq = 0) ∧
    (sendRequestRun stReady reqsTwo).2.map AppRequest.seq = [1, 2] ∧
    (sendRequestRun stReady reqsTwo).1.seq = 2 ∧
    (sendRequestRun stReady reqsTwo).2.head?.map AppRequest.seq = some 1 := by
  have hd : ∀ p ∈ reqsTwo, p.1.seq = none := by
    intro p hp
    simp only [reqsTwo, List.mem_cons, List.not_mem_nil, or_false] at hp
    rcases hp with h1 | h1 <;> subst h1 <;> rfl
  have h := sendRequest_seq_strictly_increasing stReady reqsTwo rfl hd
  refine ⟨⟨rfl, rfl⟩, ?_, ?_, ?_⟩
  · rw [h.1]; decide
  · rw [h.2.1]; decide
  · rw [h.2.2.2.2 rfl]; decide

/-- A runtime caller payload smuggling the dispatcher-owned fields (the TS
type forbids this, the legacy JS API does not). -/
def dataOverride : SendData :=
  { seq := some 999, playerId := some "x", playerToken := some 5, payload := .getTime }

/-- C3 counterexample: on a fresh connected client (dispatcher would assign
sequence 1, identity `"76561198000000000"`/`1234`), a caller payload carrying
`seq = 999`, `playerId = "x"`, `playerToken = 5` is encoded with the CALLER's
values — the dispatcher's values do not take precedence. -/
theorem caller_fields_override_counterexample :
    (sendRequest stReady dataOverride none).2.1 =
      [{ seq := 999, playerId := "x", playerToken := 5, payload := .getTime }] ∧
    stReady.seq + 1 = 1 ∧ (999 : Nat) ≠ 1 ∧
    stReady.playerId = "76561198000000000" ∧ ("x" : String) ≠ "76561198000000000" ∧
    stReady.playerToken = 1234 ∧ (5 : Int) ≠ 1234 :=
  ⟨rfl, rfl, by decide, rfl, by decide, rfl, by decide⟩

/-- C3 (amended): in the spread `{seq, playerId, playerToken, ...data}` the
caller payload comes last, so caller-supplied `seq`/`playerId`/`playerToken`
take precedence in the encoded wire request; the dispatcher's own values are
used only for the fields the caller omitted. -/
theorem caller_fields_take_precedence (st : ClientState) (d : SendData) (cb : Option Cb)
    (hready : readyToSend st = true) :
    (sendRequest st d cb).2.1 =
      [{ seq := d.seq.getD (st.seq + 1), playerId := d.playerId.getD st.playerId,
         playerToken := d.playerToken.getD st.playerToken, payload := d.payload }] := by
  rw [sendRequest_eq_of_ready st d cb hready]
  rfl

/-- Witness for the amended C3. -/
theorem caller_fields_take_precedence_witness :
    readyToSend stReady = true ∧
    (sendRequest stReady dataOverride none).2.1 =
      [{ seq := 999, playerId := "x", playerToken := 5, payload := .getTime }] :=
  ⟨rfl, caller_fields_take_precedence stReady dataOverride none rfl⟩

/-- C6: when the codec (`this.AppRequest`) or the websocket handle is absent,
`sendRequest` is a silent no-op: it returns without raising, sends no frame,
emits no event, and leaves the whole state — sequence counter and registry
included — unchanged. -/
theorem sendRequest_noop_when_unready (st : ClientState) (d : SendData) (cb : Option Cb)
    (h : st.appRequestLoaded = false ∨ st.websocket = none) :
    sendRequest st d cb = (st, [], []) := by
  rcases h with h | h <;> simp [sendRequest, h]

/-- A never-connected client (constructor output). -/
def stFresh : ClientState := initState "76561198000000000" 1234

/-- Witness for C6: on the never-connected client, `sendRequest` with a
callback changes nothing and produces nothing. -/
theorem sendRequest_noop_when_unready_witness :
    (stFresh.appRequestLoaded = false ∨ stFresh.websocket = none) ∧
    sendRequest stFresh dataGetTime (some cbTrue) = (stFresh, [], []) :=
  ⟨Or.inl rfl, sendRequest_noop_when_unready stFresh dataGetTime (some cbTrue) (Or.inl rfl)⟩

/-- C2: an inbound response frame whose non-zero sequence matches a pending
registry entry invokes that entry's callback exactly once (with the decoded
message) and removes the entry; handling a second frame with the same sequence
finds no entry, invokes nothing, and delivers the frame through the generic
`message` notification. -/
theorem matched_response_callback_once {Data : Type} (decode : Data → AppMessage)
    (st : ClientState) (data : Data) (r : AppResponse) (cb : Cb)
    (hloaded : st.appMessageLoaded = true)
    (hresp : (decode data).response = some r)
    (hseq : r.seq ≠ 0)
    (hcb : regGet st.seqCallbacks r.seq = some cb) :
    (handleMessage decode st data).2.2 = [(r.seq, decode data)] ∧
    regGet (handleMessage decode st data).1.seqCallbacks r.seq = none ∧
    handleMessage decode (handleMessage decode st data).1 data =
      ((handleMessage decode st data).1, [.messageEv (decode data)], []) := by
  have h := handleMessage_matched decode st data r cb hloaded hresp hseq hcb
  by_cases ht : truthy (cb (decode data)) = true
  · rw [h, if_pos ht]
    exact ⟨rfl, regGet_regDel_self _ _,
      handleMessage_unmatched decode _ data r hloaded hresp hseq (regGet_regDel_self _ _)⟩
  · rw [h, if_neg ht]
    exact ⟨rfl, regGet_regDel_self _ _,
      handleMessage_unmatched decode _ data r hloaded hresp hseq (regGet_regDel_self _ _)⟩

/-- The fresh connected client with `cbTrue` pending under sequence 1. -/
def stWithCbTrue : ClientState := { stReady with seqCallbacks := regSet [] 1 cbTrue }

/-- The fresh connected client with `cbFalse` pending under sequence 1. -/
def stWithCbFalse : ClientState := { stReady with seqCallbacks := regSet [] 1 cbFalse }

/-- The fresh connected client with `cbPromise` pending under sequence 1. -/
def stWithCbPromise : ClientState := { stReady with seqCallbacks := regSet [] 1 cbPromise }

/-- Witness for C2: the response with sequence 1 fires the pending callback
once, empties the registry, and a duplicate frame goes to `message`. -/
theorem matched_response_callback_once_witness :
    (stWithCbTrue.appMessageLoaded = true ∧ (id msgOk).response = some respOk ∧
      respOk.seq ≠ 0 ∧ regGet stWithCbTrue.seqCallbacks respOk.seq = some cbTrue) ∧
    (handleMessage id stWithCbTrue msgOk).2.2 = [(respOk.seq, msgOk)] ∧
    regGet (handleMessage id stWithCbTrue msgOk).1.seqCallbacks respOk.seq = none ∧
    handleMessage id (handleMessage id stWithCbTrue msgOk).1 msgOk =
      ((handleMessage id stWithCbTrue msgOk).1, [.messageEv msgOk], []) := by
  have h := matched_response_callback_once id stWithCbTrue msgOk respOk cbTrue rfl rfl
    (by decide) rfl
  exact ⟨⟨rfl, rfl, by decide, rfl⟩, h.1, h.2.1, h.2.2⟩

/-- C4: for a matched response frame, a truthy callback return value
suppresses the generic `message` notification; a falsy return value lets the
notification fire, carrying the same decoded content the callback received. -/
theorem callback_result_controls_message_event {Data : Type} (decode : Data → AppMessage)
    (st : ClientState) (data : Data) (r : AppResponse) (cb : Cb)
    (hloaded : st.appMessageLoaded = true)
    (hresp : (decode data).response = some r)
    (hseq : r.seq ≠ 0)
    (hcb : regGet st.seqCallbacks r.seq = some cb) :
    (handleMessage decode st data).2.2 = [(r.seq, decode data)] ∧
    (truthy (cb (decode data)) = true → (handleMessage decode st data).2.1 = []) ∧
    (truthy (cb (decode data)) = false →
      (handleMessage decode st data).2.1 = [.messageEv (decode data)]) := by
  have h := handleMessage_matched decode st data r cb hloaded hresp hseq hcb
  by_cases ht : truthy (cb (decode data)) = true
  · rw [h, if_pos ht]
    exact ⟨rfl, fun _ => rfl, fun hf => Bool.noConfusion (hf.symm.trans ht)⟩
  · rw [h, if_neg ht]
    exact ⟨rfl, fun htr => absurd htr ht, fun _ => rfl⟩

/-- Witness for C4: a callback returning `false` lets the `message` event fire
with the very message the callback received. -/
theorem callback_result_controls_message_event_witness :
    (stWithCbFalse.appMessageLoaded = true ∧ (id msgOk).response = some respOk ∧
      respOk.seq ≠ 0 ∧ regGet stWithCbFalse.seqCallbacks respOk.seq = some cbFalse ∧
      truthy (cbFalse (id msgOk)) = false) ∧
    (handleMessage id stWithCbFalse msgOk).2.2 = [(respOk.seq, msgOk)] ∧
    (handleMessage id stWithCbFalse msgOk).2.1 = [.messageEv msgOk] := by
  have h := callback_result_controls_message_event id stWithCbFalse msgOk respOk cbFalse rfl rfl
    (by decide) rfl
  exact ⟨⟨rfl, rfl, by decide, rfl, rfl⟩, h.1, h.2.2 rfl⟩

/-- C7: a response frame carrying sequence 0 never matches a registry entry
(even one stored under key 0) and invokes no callback; it is delivered only
through the generic `message` notification, with the state untouched. -/
theorem seq_zero_never_matched {Data : Type} (decode : Data → AppMessage) (st : ClientState)
    (data : Data) (r : AppResponse)
    (hloaded : st.appMessageLoaded = true)
    (hresp : (decode data).response = some r)
    (hseq0 : r.seq = 0) :
    handleMessage decode st data = (st, [.messageEv (decode data)], []) := by
  simp [handleMessage, hloaded, hresp, hseq0]

/-- The response carrying the reserved sequence 0. -/
def respZero : AppResponse := { seq := 0, error := none, content := 7 }

/-- The decoded frame carrying `respZero`. -/
def msgZeroFrame : AppMessage := { response := some respZero, broadcast := none }

/-- A client that even holds a registry entry under key 0. -/
def stZeroCb : ClientState := { stReady with seqCallbacks := regSet [] 0 cbTrue }

/-- Witness for C7: with an entry stored under key 0, a sequence-0 response
still matches nothing and only fires the `message` event. -/
theorem seq_zero_never_matched_witness :
    (stZeroCb.appMessageLoaded = true ∧ (id msgZeroFrame).response = some respZero ∧
      respZero.seq = 0 ∧ regGet stZeroCb.seqCallbacks 0 = some cbTrue) ∧
    handleMessage id stZeroCb msgZeroFrame = (stZeroCb, [.messageEv msgZeroFrame], []) :=
  ⟨⟨rfl, rfl, rfl, rfl⟩, seq_zero_never_matched id stZeroCb msgZeroFrame respZero rfl rfl rfl⟩

/-- C10: a matched callback that returns a `Promise` — whatever it later
resolves to, `undefined` included — returns a truthy value, so the generic
`message` notification is never emitted for that frame. -/
theorem promise_callback_suppresses_message {Data : Type} (decode : Data → AppMessage)
    (st : ClientState) (data : Data) (r : AppResponse) (cb : Cb) (res : JsResolved)
    (hloaded : st.appMessageLoaded = true)
    (hresp : (decode data).response = some r)
    (hseq : r.seq ≠ 0)
    (hcb : regGet st.seqCallbacks r.seq = some cb)
    (hret : cb (decode data) = .promiseVal res) :
    truthy (cb (decode data)) = true ∧
    (handleMessage decode st data).2.1 = [] ∧
    (handleMessage decode st data).2.2 = [(r.seq, decode data)] := by
  have htr : truthy (cb (decode data)) = true := by rw [hret]; rfl
  have h := handleMessage_matched decode st data r cb hloaded hresp hseq hcb
  rw [h, if_pos htr]
  exact ⟨htr, rfl, rfl⟩

/-- Witness for C10: an async callback resolving to `undefined` still
suppresses the `message` event. -/
theorem promise_callback_suppresses_message_witness :
    (stWithCbPromise.appMessageLoaded = true ∧
      regGet stWithCbPromise.seqCallbacks respOk.seq = some cbPromise ∧
      cbPromise (id msgOk) = .promiseVal .undefVal) ∧
    truthy (cbPromise (id msgOk)) = true ∧
    (handleMessage id stWithCbPromise msgOk).2.1 = [] ∧
    (handleMessage id stWithCbPromise msgOk).2.2 = [(respOk.seq, msgOk)] := by
  have h := promise_callback_suppresses_message id stWithCbPromise msgOk respOk cbPromise
    .undefVal rfl rfl (by decide) rfl rfl
  exact ⟨⟨rfl, rfl, rfl⟩, h.1, h.2.1, h.2.2⟩

/-- C8: `isConnected()` is true iff a transport handle exists with underlying
state `OPEN`; with no handle it returns `false` rather than throwing (the
`!= null` guard makes it total); it is false on the freshly constructed
client, false after a transport `close` signal, and false after
`disconnect()`. -/
theorem isConnected_iff_open (st : ClientState) (pid : String) (ptok : Int) :
    (isConnected st = true ↔ ∃ w, st.websocket = some w ∧ w.readyState = .OPEN) ∧
    (st.websocket = none → isConnected st = false) ∧
    isConnected (initState pid ptok) = false ∧
    isConnected (onCloseSignal st).1 = false ∧
    isConnected (disconnect st).1 = false := by
  refine ⟨?_, fun h => by simp [isConnected, h], rfl, ?_, ?_⟩
  · cases hw : st.websocket with
    | none => simp [isConnected, hw]
    | some w => simp [isConnected, hw]
  · cases hw : st.websocket with
    | none => simp [onCloseSignal, isConnected, hw]
    | some w => simp [onCloseSignal, isConnected, hw]
  · cases hw : st.websocket with
    | none => simp [disconnect, isConnected, hw]
    | some w => simp [disconnect, isConnected, hw]

/-- Witness for C8: the open client is connected (and exhibits the open
handle); the fresh client and the disconnected client are not. -/
theorem isConnected_iff_open_witness :
    isConnected stReady = true ∧
    (∃ w, stReady.websocket = some w ∧ w.readyState = .OPEN) ∧
    isConnected (initState "p" 1) = false ∧
    isConnected (onCloseSignal stReady).1 = false ∧
    isConnected (disconnect stReady).1 = false :=
  ⟨rfl, (isConnected_iff_open stReady "p" 1).1.mp rfl,
    (isConnected_iff_open stReady "p" 1).2.2.1,
    (isConnected_iff_open stReady "p" 1).2.2.2.1,
    (isConnected_iff_open stReady "p" 1).2.2.2.2⟩

/-- C9: `disconnect()` is idempotent: with no handle (never-connected client
included) it is a total no-op; with a handle it terminates the handle and
clears it, so the immediately following call is again a no-op. -/
theorem disconnect_idempotent (st : ClientState) (w : WS) (pid : String) (ptok : Int) :
    (st.websocket = none → disconnect st = (st, [])) ∧
    (st.websocket = some w → disconnect st = ({ st with websocket := none }, [.terminate w])) ∧
    disconnect (disconnect st).1 = ((disconnect st).1, []) ∧
    disconnect (initState pid ptok) = (initState pid ptok, []) := by
  refine ⟨fun h => by simp [disconnect, h], fun h => by simp [disconnect, h], ?_, rfl⟩
  cases hw : st.websocket with
  | none => simp [disconnect, hw]
  | some w' => simp [disconnect, hw]

/-- Witness for C9: disconnecting the open client terminates and clears its
handle; disconnecting the fresh client is a no-op. -/
theorem disconnect_idempotent_witness :
    stReady.websocket = some wsOpen ∧
    disconnect stReady = ({ stReady with websocket := none }, [.terminate wsOpen]) ∧
    disconnect (disconnect stReady).1 = ((disconnect stReady).1, []) ∧
    disconnect (initState "p" 1) = (initState "p" 1, []) :=
  ⟨rfl, (disconnect_idempotent stReady wsOpen "p" 1).2.1 rfl,
    (disconnect_idempotent stReady wsOpen "p" 1).2.2.1,
    (disconnect_idempotent stReady wsOpen "p" 1).2.2.2⟩

/-- C5: one `sendRequestAsync` awaitable settles exactly once — with the
timeout error if the timer fires first (the default window being 10000 ms),
with the response's error indicator if an error response arrives first, and
with the response on success — and every occurrence after settlement is a
no-op (the timer was cleared, or the promise is already settled). -/
theorem sendRequestAsync_settles_exactly_once
    (evs evs' : List AsyncEvent) (e0 : AsyncEvent) (st : AsyncState)
    (o : AsyncOutcome) (r : AppResponse) :
    (asyncRun asyncInit (e0 :: evs)).settled.isSome = true ∧
    (asyncRun asyncInit (.timerFires :: evs)).settled = some .timeoutErr ∧
    (∀ e, r.error = some e →
      (asyncRun asyncInit (.responseArrives r :: evs)).settled = some (.respError e)) ∧
    (r.error = none →
      (asyncRun asyncInit (.responseArrives r :: evs)).settled = some (.success r)) ∧
    (st.settled = some o → (asyncRun st evs').settled = some o) ∧
    defaultTimeoutMilliseconds = 10000 := by
  refine ⟨?_, ?_, ?_, ?_, fun h => asyncRun_settled st o evs' h, rfl⟩
  · cases e0 with
    | timerFires =>
      simp only [asyncRun]
      rw [asyncRun_settled (asyncStep asyncInit .timerFires) .timeoutErr evs rfl]
      rfl
    | responseArrives r' =>
      simp only [asyncRun]
      cases hr : r'.error with
      | some e =>
        rw [asyncRun_settled _ (.respError e) evs
          (by simp [asyncStep, onResponse, promiseSettle, hr, asyncInit])]
        rfl
      | none =>
        rw [asyncRun_settled _ (.success r') evs
          (by simp [asyncStep, onResponse, promiseSettle, hr, asyncInit])]
        rfl
  · simp only [asyncRun]
    exact asyncRun_settled _ .timeoutErr evs rfl
  · intro e he
    simp only [asyncRun]
    exact asyncRun_settled _ _ evs
      (by simp [asyncStep, onResponse, promiseSettle, he, asyncInit])
  · intro he
    simp only [asyncRun]
    exact asyncRun_settled _ _ evs
      (by simp [asyncStep, onResponse, promiseSettle, he, asyncInit])

/-- Witness for C5: an error response settles the awaitable with that error
and a later timer firing is a no-op; a timer firing first settles it with the
timeout error and a later response is a no-op; a success response resolves it. -/
theorem sendRequestAsync_settles_exactly_once_witness :
    respErr.error = some { error := "banned" } ∧
    (asyncRun asyncInit [.responseArrives respErr, .timerFires]).settled =
      some (.respError { error := "banned" }) ∧
    (asyncRun asyncInit [.timerFires, .responseArrives respOk]).settled = some .timeoutErr ∧
    respOk.error = none ∧
    (asyncRun asyncInit [.responseArrives respOk]).settled = some (.success respOk) :=
  ⟨rfl,
    (sendRequestAsync_settles_exactly_once [.timerFires] [] .timerFires asyncInit
      .timeoutErr respErr).2.2.1 { error := "banned" } rfl,
    (sendRequestAsync_settles_exactly_once [.responseArrives respOk] [] .timerFires asyncInit
      .timeoutErr respErr).2.1,
    rfl,
    (sendRequestAsync_settles_exactly_once [] [] .timerFires asyncInit
      .timeoutErr respOk).2.2.2.1 rfl⟩

end RustPlusSpec
